import Mathlib

/-!
Verification of the engineering-drawing parameter-extraction pipeline
(`main.py` and `scripts/extract_parameters.py`).

The Python sources are shallowly embedded: bytes are `List Nat` (each entry a
byte value `< 256`), Python strings are `String`, Python dicts produced by
`json.loads` are association lists `List (String × String)` (the pipeline's
claims only concern JSON objects with string values), and a call that can raise
is an `Except String` result.  External libraries (PyMuPDF's `fitz`, PIL,
`json.loads`, the Azure OpenAI client) sit behind an explicit environment
record `Cyl.Env`, so that functions of the repository are total Lean functions
of the environment and their inputs, and so that their observable interactions
(which requests are built, which native handles are opened and closed) are part
of the returned value and can be reasoned about.
-/

namespace Cyl

/-! ## Base64 encoding (`base64.b64encode` used by `encode_image_to_base64`)

`encode_image_to_base64` in `scripts/extract_parameters.py` returns
`"data:image/jpeg;base64," + base64.b64encode(image_bytes).decode('utf-8')`.
`base64Encode` below is standard RFC 4648 base64 over byte lists, the
behaviour of `base64.b64encode`; `base64Decode` is the standard inverse,
used to state the round-trip property. -/

def base64Alphabet : List Char :=
  "ABCDEFGHIJKLMNOPQRSTUVWXYZabcdefghijklmnopqrstuvwxyz0123456789+/".toList

/-- Character for a 6-bit group. -/
def base64Char (n : Nat) : Char := base64Alphabet.getD n 'A'

def base64IndexAux (c : Char) : List Char → Nat → Option Nat
  | [], _ => none
  | a :: rest, i => if a = c then some i else base64IndexAux c rest (i + 1)

/-- Position of a character in the base64 alphabet (`none` for `'='` and
any other non-alphabet character). -/
def base64Index (c : Char) : Option Nat := base64IndexAux c base64Alphabet 0

/-- RFC 4648 base64 encoding of a byte list, with `'='` padding. -/
def base64Encode : List Nat → List Char
  | [] => []
  | [b1] => [base64Char (b1 / 4), base64Char (b1 % 4 * 16), '=', '=']
  | [b1, b2] =>
      [base64Char (b1 / 4), base64Char (b1 % 4 * 16 + b2 / 16),
       base64Char (b2 % 16 * 4), '=']
  | b1 :: b2 :: b3 :: rest =>
      base64Char (b1 / 4) :: base64Char (b1 % 4 * 16 + b2 / 16) ::
      base64Char (b2 % 16 * 4 + b3 / 64) :: base64Char (b3 % 64) ::
      base64Encode rest

/-- Standard base64 decoding, the mathematical inverse used to state the
round-trip property of `base64Encode`. -/
def base64Decode : List Char → Option (List Nat)
  | [] => some []
  | c1 :: c2 :: c3 :: c4 :: rest =>
    match base64Index c1, base64Index c2, base64Index c3, base64Index c4 with
    | some s1, some s2, some s3, some s4 =>
        match base64Decode rest with
        | some tail =>
            some ((s1 * 4 + s2 / 16) :: (s2 % 16 * 16 + s3 / 4) ::
                  (s3 % 4 * 64 + s4) :: tail)
        | none => none
    | some s1, some s2, some s3, none =>
        if c4 = '=' ∧ rest = [] then
          some [s1 * 4 + s2 / 16, s2 % 16 * 16 + s3 / 4]
        else none
    | some s1, some s2, none, none =>
        if c3 = '=' ∧ c4 = '=' ∧ rest = [] then
          some [s1 * 4 + s2 / 16]
        else none
    | _, _, _, _ => none
  | _ => none

theorem base64Index_base64Char : ∀ s, s < 64 → base64Index (base64Char s) = some s := by
  decide

theorem base64Index_pad : base64Index '=' = none := by decide

theorem base64_roundtrip (bytes : List Nat) :
    (∀ b ∈ bytes, b < 256) → base64Decode (base64Encode bytes) = some bytes := by
  induction bytes using base64Encode.induct with
  | case1 =>
    intro _
    decide
  | case2 b1 =>
    intro h
    have hb1 : b1 < 256 := h b1 (by simp)
    have h1 := base64Index_base64Char (b1 / 4) (by omega)
    have h2 := base64Index_base64Char (b1 % 4 * 16) (by omega)
    simp only [base64Encode, base64Decode, h1, h2, base64Index_pad]
    simp
    omega
  | case3 b1 b2 =>
    intro h
    have hb1 : b1 < 256 := h b1 (by simp)
    have hb2 : b2 < 256 := h b2 (by simp)
    have h1 := base64Index_base64Char (b1 / 4) (by omega)
    have h2 := base64Index_base64Char (b1 % 4 * 16 + b2 / 16) (by omega)
    have h3 := base64Index_base64Char (b2 % 16 * 4) (by omega)
    simp only [base64Encode, base64Decode, h1, h2, h3, base64Index_pad]
    simp
    constructor <;> omega
  | case4 b1 b2 b3 rest ih =>
    intro h
    have hb1 : b1 < 256 := h b1 (by simp)
    have hb2 : b2 < 256 := h b2 (by simp)
    have hb3 : b3 < 256 := h b3 (by simp)
    have h1 := base64Index_base64Char (b1 / 4) (by omega)
    have h2 := base64Index_base64Char (b1 % 4 * 16 + b2 / 16) (by omega)
    have h3 := base64Index_base64Char (b2 % 16 * 4 + b3 / 64) (by omega)
    have h4 := base64Index_base64Char (b3 % 64) (by omega)
    have htail := ih (fun b hb => h b (by simp [hb]))
    simp only [base64Encode, base64Decode, h1, h2, h3, h4, htail,
      Option.some.injEq, List.cons.injEq, and_true]
    refine ⟨by omega, by omega, by omega⟩

/-! ## Data model and external environment

The external collaborators of `scripts/extract_parameters.py` — PyMuPDF
(`fitz.open`, `page.get_pixmap`), PIL (`Image.frombytes` + `save`), the
module-level Azure OpenAI `client`, `client.chat.completions.create`, and
`json.loads` — are modelled as an explicit environment.  An `Except.error`
value of an environment field models the library call raising an exception. -/

/-- Result of `page.get_pixmap`: a raster with dimensions and samples. -/
structure Pixmap where
  width : Nat
  height : Nat
  samples : List Nat

/-- An open PyMuPDF document handle.  `pageCount` is `len(pdf_document)`
(the document is falsy in Python exactly when it has zero pages);
`getPixmap i (sx, sy)` is `pdf_document[i].get_pixmap(matrix=fitz.Matrix(sx, sy))`,
which may raise. -/
structure PdfDoc where
  pageCount : Nat
  getPixmap : Nat → Nat × Nat → Except String Pixmap

/-- The request sent to `client.chat.completions.create` in
`analyze_engineering_drawing`, restricted to the knobs and payload parts the
specification talks about.  The fixed instruction texts (`system_content`,
`user_content`) are process-wide string constants and are not reproduced;
the schema's required field list is kept as `jsonSchemaRequired` below. -/
structure Request where
  temperature : Nat
  maxTokens : Nat
  responseFormat : String
  imageUrls : List String
  imageDetail : String
  deriving DecidableEq

/-- External environment of the pipeline.
`openDoc` is `fitz.open(stream=pdf_bytes, filetype="pdf")`;
`saveJpeg mode (w, h) samples fmt quality` is
`Image.frombytes(mode, [w, h], samples)` followed by `save(..., format=fmt,
quality=quality)`, returning the written bytes;
`client` is the module-level Azure OpenAI client (`none` when not
initialized, so that `not client` is true);
`sendRequest` is `client.chat.completions.create`, returning the reply's
message content;
`jsonParse` is `json.loads`, restricted to JSON-object replies with string
values (`none` models `json.JSONDecodeError`). -/
structure Env where
  openDoc : List Nat → Except String PdfDoc
  saveJpeg : String → Nat × Nat → List Nat → String → Nat → Except String (List Nat)
  client : Option Unit
  sendRequest : Request → Except String String
  jsonParse : String → Option (List (String × String))

/-- The `required` list of the `json_schema` constant in
`analyze_engineering_drawing` (`scripts/extract_parameters.py`). -/
def jsonSchemaRequired : List String :=
  ["bore_diameter", "mounting", "operating_temperature", "operating_pressure",
   "close_length", "drawing_number", "fluid", "rod_end", "cylinder_action",
   "stroke_length", "rod_diameter", "outside_diameter", "body_material",
   "open_length", "rated_load", "piston_material", "standard", "surface_finish",
   "coating_thickness", "special_features", "cylinder_configuration",
   "cylinder_style", "concentricity_of_rod_and_tube"]

/-! ## `scripts/extract_parameters.py` -/

/-- `encode_image_to_base64`: returns
`"data:image/jpeg;base64," + base64.b64encode(image_bytes).decode('utf-8')`. -/
def encode_image_to_base64 (imageBytes : List Nat) : String :=
  "data:image/jpeg;base64," ++ String.mk (base64Encode imageBytes)

/-- Observable outcome of `convert_pdf_to_image_bytes`: the returned value
(`none` for the Python `None`) together with the native-handle and library
interactions performed: how many document handles were opened by `fitz.open`
and closed by `pdf_document.close()`, which `get_pixmap` renderings were
requested (page index and matrix diagonal), and which PIL encodings were
requested (mode, format, quality). -/
structure ConvertOutcome where
  result : Option (List Nat)
  openedHandles : Nat
  closedHandles : Nat
  renderCalls : List (Nat × Nat × Nat)
  encodeCalls : List (String × String × Nat)
  deriving DecidableEq

/-- `convert_pdf_to_image_bytes(pdf_bytes)`.  Branches, in source order:
`fitz.open` raising is caught by the `except` and returns `None` (no handle
was produced); an opened but falsy (zero-page) document returns `None`
early *without* `close()`; a raising `get_pixmap` or PIL conversion is
caught by the `except` and returns `None`, again without `close()`;
on success the handle is closed and the JPEG bytes are returned. -/
def convert_pdf_to_image_bytes (env : Env) (pdfBytes : List Nat) : ConvertOutcome :=
  match env.openDoc pdfBytes with
  | .error _ =>
      { result := none, openedHandles := 0, closedHandles := 0,
        renderCalls := [], encodeCalls := [] }
  | .ok doc =>
      if doc.pageCount = 0 then
        { result := none, openedHandles := 1, closedHandles := 0,
          renderCalls := [], encodeCalls := [] }
      else
        match doc.getPixmap 0 (2, 2) with
        | .error _ =>
            { result := none, openedHandles := 1, closedHandles := 0,
              renderCalls := [(0, 2, 2)], encodeCalls := [] }
        | .ok pix =>
            match env.saveJpeg "RGB" (pix.width, pix.height) pix.samples "JPEG" 95 with
            | .error _ =>
                { result := none, openedHandles := 1, closedHandles := 0,
                  renderCalls := [(0, 2, 2)], encodeCalls := [("RGB", "JPEG", 95)] }
            | .ok jpegBytes =>
                { result := some jpegBytes, openedHandles := 1, closedHandles := 1,
                  renderCalls := [(0, 2, 2)], encodeCalls := [("RGB", "JPEG", 95)] }

/-- The request `analyze_engineering_drawing` builds: one system message and
one user message whose content holds one text part and one image part
(`encode_image_to_base64` of the input, `detail="high"`), with
`max_tokens=3000`, `temperature=0`, `response_format={"type": "json_object"}`. -/
def buildRequest (imageBytes : List Nat) : Request :=
  { temperature := 0, maxTokens := 3000, responseFormat := "json_object",
    imageUrls := [encode_image_to_base64 imageBytes], imageDetail := "high" }

/-- Observable outcome of `analyze_engineering_drawing`: the returned dict,
the requests actually dispatched to the model capability, and the console
`print` diagnostics produced. -/
structure AnalyzeOutcome where
  data : List (String × String)
  calls : List Request
  printed : List String
  deriving DecidableEq

/-- `analyze_engineering_drawing(image_bytes, filename)`.  Mirrors the source:
the base64 image and prompts are built first; `if not client:` returns the
"Azure OpenAI client not initialized" error dict before anything is printed
or sent; otherwise the request is dispatched once — a raising call is caught
and becomes `{"error": str(e)}`; a reply that fails `json.loads` becomes
`{"error": "JSON decoding failed", "raw_response": content}` (the *full* raw
content; only the printed diagnostic truncates it to 500 characters); a reply
that parses is returned verbatim. -/
def analyze_engineering_drawing (env : Env) (imageBytes : List Nat)
    (filename : String) : AnalyzeOutcome :=
  if env.client.isNone then
    { data := [("error", "Azure OpenAI client not initialized")],
      calls := [], printed := [] }
  else
    let req := buildRequest imageBytes
    match env.sendRequest req with
    | .error e =>
        { data := [("error", e)], calls := [req],
          printed := ["Processing " ++ filename ++ "...",
                      "API request failed for " ++ filename ++ ": " ++ e] }
    | .ok content =>
        match env.jsonParse content with
        | some extracted =>
            { data := extracted, calls := [req],
              printed := ["Processing " ++ filename ++ "...",
                          "Successfully extracted data for " ++ filename ++ "."] }
        | none =>
            { data := [("error", "JSON decoding failed"), ("raw_response", content)],
              calls := [req],
              printed := ["Processing " ++ filename ++ "...",
                          "Error: Could not decode JSON from API response for "
                            ++ filename ++ ". Raw content: "
                            ++ content.take 500 ++ "..."] }

/-! ## `main.py` (Streamlit batch loop and CSV export) -/

/-- A file from `st.file_uploader`: its name and raw bytes. -/
structure UploadedFile where
  name : String
  content : List Nat
  deriving DecidableEq

/-- One entry of the `all_extracted_data` accumulator:
`{"filename": ..., "data": ...}`. -/
structure FileRecord where
  filename : String
  data : List (String × String)
  deriving DecidableEq

/-- `str.split('.')` over the characters: splits at every `'.'`,
keeping empty segments, as Python's `split` does. -/
def splitDotAux (acc : List Char) : List Char → List (List Char)
  | [] => [acc.reverse]
  | c :: rest =>
      if c = '.' then acc.reverse :: splitDotAux [] rest
      else splitDotAux (c :: acc) rest

/-- `uploaded_file.name.split('.')[-1].lower()` (character-level model of the
Python string operations; `split` never returns an empty list, so `[-1]` is
the last segment). -/
def fileExtension (name : String) : String :=
  String.mk (((splitDotAux [] name.data).getLastD []).map Char.toLower)

/-- One iteration of the `for uploaded_file in uploaded_files` loop of
`main.py` (lines 31–58): the record appended to `all_extracted_data` for this
file, together with the model requests dispatched for it.  The trailing
`if image_data:` truthiness check of the source is folded into each branch
(for the pdf branch `image_data` is already known non-empty from the
`if not image_data:` early `continue`). -/
def processFile (env : Env) (f : UploadedFile) : FileRecord × List Request :=
  if fileExtension f.name = "pdf" then
    match (convert_pdf_to_image_bytes env f.content).result with
    | none => (⟨f.name, [("error", "PDF conversion failed")]⟩, [])
    | some imageData =>
        if imageData.isEmpty then
          (⟨f.name, [("error", "PDF conversion failed")]⟩, [])
        else
          let o := analyze_engineering_drawing env imageData f.name
          (⟨f.name, o.data⟩, o.calls)
  else if fileExtension f.name = "png" ∨ fileExtension f.name = "jpg"
      ∨ fileExtension f.name = "jpeg" then
    if f.content.isEmpty then
      (⟨f.name, [("error", "No image data to analyze")]⟩, [])
    else
      let o := analyze_engineering_drawing env f.content f.name
      (⟨f.name, o.data⟩, o.calls)
  else
    (⟨f.name, [("error", "Unsupported file type")]⟩, [])

/-- The whole upload loop of `main.py`: the `all_extracted_data` list built
by appending one record per uploaded file, in upload order. -/
def processFiles (env : Env) : List UploadedFile → List FileRecord
  | [] => []
  | f :: rest => (processFile env f).1 :: processFiles env rest

/-- The CSV-export accumulator of `main.py` (lines 67–90): a file whose
`data` holds an `"error"` key is displayed with `st.error` and *skipped*
(`continue`) — it contributes no row; otherwise the row is
`{"filename": ...}` updated with the data. -/
def flattened_data : List FileRecord → List (List (String × String))
  | [] => []
  | r :: rest =>
      if r.data.any (fun kv => kv.1 == "error") then
        flattened_data rest
      else
        (("filename", r.filename) :: r.data) :: flattened_data rest

/-! ## `main()` of `scripts/extract_parameters.py` (directory batch) -/

/-- Reading one path of `pdf_files_to_process`: the basename of the path and
the outcome of `open(pdf_path, 'rb')` + `read()` —
`fileNotFound` models `FileNotFoundError`, `ioError` any other exception. -/
inductive ReadErr
  | fileNotFound
  | ioError (msg : String)
  deriving DecidableEq

structure ScriptFile where
  filename : String
  readResult : Except ReadErr (List Nat)

/-- One iteration of the `for pdf_path in pdf_files_to_process` loop
(lines 245–261): read, convert, analyze; `FileNotFoundError` and any other
exception are caught and recorded as error records. -/
def processPdfPath (env : Env) (f : ScriptFile) : FileRecord :=
  match f.readResult with
  | .error .fileNotFound => ⟨f.filename, [("error", "File not found")]⟩
  | .error (.ioError e) => ⟨f.filename, [("error", e)]⟩
  | .ok pdfBytes =>
      match (convert_pdf_to_image_bytes env pdfBytes).result with
      | some imageBytes =>
          if imageBytes.isEmpty then
            ⟨f.filename, [("error", "PDF to image conversion failed")]⟩
          else
            ⟨f.filename, (analyze_engineering_drawing env imageBytes f.filename).data⟩
      | none => ⟨f.filename, [("error", "PDF to image conversion failed")]⟩

/-- The whole script loop: one record appended per path, in directory order. -/
def scriptProcess (env : Env) : List ScriptFile → List FileRecord
  | [] => []
  | f :: rest => processPdfPath env f :: scriptProcess env rest

/-- The Excel-export `records` list of the script's `main()` (lines 275–282):
every item contributes a row `{"filename": ...}` updated with its data
(every `data` produced by this pipeline is a dict, so the `isinstance`
fallback branch is never taken). -/
def excelRecords : List FileRecord → List (List (String × String))
  | [] => []
  | item :: rest => (("filename", item.filename) :: item.data) :: excelRecords rest

/-! ## Helper lemmas -/

theorem processFile_filename (env : Env) (f : UploadedFile) :
    (processFile env f).1.filename = f.name := by
  unfold processFile
  repeat' split
  all_goals rfl

theorem processPdfPath_filename (env : Env) (f : ScriptFile) :
    (processPdfPath env f).filename = f.filename := by
  unfold processPdfPath
  repeat' split
  all_goals rfl

theorem processFiles_map_filename (env : Env) (files : List UploadedFile) :
    (processFiles env files).map FileRecord.filename = files.map UploadedFile.name := by
  induction files with
  | nil => rfl
  | cons f rest ih => simp [processFiles, processFile_filename, ih]

theorem scriptProcess_map_filename (env : Env) (sfiles : List ScriptFile) :
    (scriptProcess env sfiles).map FileRecord.filename = sfiles.map ScriptFile.filename := by
  induction sfiles with
  | nil => rfl
  | cons f rest ih => simp [scriptProcess, processPdfPath_filename, ih]

theorem processFiles_append (env : Env) (pre post : List UploadedFile) (f : UploadedFile) :
    processFiles env (pre ++ f :: post)
      = processFiles env pre ++ (processFile env f).1 :: processFiles env post := by
  induction pre with
  | nil => rfl
  | cons g rest ih => simp [processFiles, ih]

/-! ## Claims -/

/-- C1: for every batch of uploaded documents (both the Streamlit loop of
`main.py` and the directory loop of the script's `main()`), processing
appends exactly one outcome record per document to the batch accumulator, in
upload order: the accumulator's filenames are exactly the uploaded names, in
order, so no document is dropped and none yields more than one record. -/
theorem claim_C1 (env : Env) (files : List UploadedFile) (sfiles : List ScriptFile) :
    (processFiles env files).map FileRecord.filename = files.map UploadedFile.name
    ∧ (processFiles env files).length = files.length
    ∧ (scriptProcess env sfiles).map FileRecord.filename = sfiles.map ScriptFile.filename
    ∧ (scriptProcess env sfiles).length = sfiles.length := by
  refine ⟨processFiles_map_filename env files, ?_,
          scriptProcess_map_filename env sfiles, ?_⟩
  · have h := congrArg List.length (processFiles_map_filename env files)
    simpa using h
  · have h := congrArg List.length (scriptProcess_map_filename env sfiles)
    simpa using h

/-- C2: a failure at the normalizing (`convert_pdf_to_image_bytes` returns
`None`), extracting (`client.chat.completions.create` raises), or validating
(`json.loads` raises) stage is caught at the document's boundary and recorded
as a failure record with its error kind; the batch decomposes pointwise, so
one document's outcome never alters another document's outcome and never
aborts the batch. -/
theorem claim_C2 (env : Env) (pre post : List UploadedFile) (f : UploadedFile)
    (img : List Nat) (e c : String) :
    (processFiles env (pre ++ f :: post)
        = processFiles env pre ++ (processFile env f).1 :: processFiles env post)
    ∧ (fileExtension f.name = "pdf" →
        (convert_pdf_to_image_bytes env f.content).result = none →
        (processFile env f).1.data = [("error", "PDF conversion failed")])
    ∧ (env.client.isSome = true →
        env.sendRequest (buildRequest img) = .error e →
        (analyze_engineering_drawing env img f.name).data = [("error", e)])
    ∧ (env.client.isSome = true →
        env.sendRequest (buildRequest img) = .ok c →
        env.jsonParse c = none →
        (analyze_engineering_drawing env img f.name).data
          = [("error", "JSON decoding failed"), ("raw_response", c)]) := by
  refine ⟨processFiles_append env pre post f, ?_, ?_, ?_⟩
  · intro hext hconv
    simp [processFile, hext, hconv]
  · intro hcl hsend
    simp [analyze_engineering_drawing, Option.isNone_iff_eq_none,
      Option.isSome_iff_ne_none.mp hcl, hsend]
  · intro hcl hsend hparse
    simp [analyze_engineering_drawing, Option.isNone_iff_eq_none,
      Option.isSome_iff_ne_none.mp hcl, hsend, hparse]

/-- Environment for the C2 witness: a PDF stream `fitz.open` cannot open, a
configured client whose request raises. -/
def env2 : Env :=
  { openDoc := fun _ => .error "cannot open stream",
    saveJpeg := fun _ _ _ _ _ => .error "no encoder",
    client := some (),
    sendRequest := fun _ => .error "boom",
    jsonParse := fun _ => none }

/-- Environment for the C2 witness, validating stage: the request succeeds
but the reply is not valid JSON. -/
def env2b : Env :=
  { openDoc := fun _ => .error "cannot open stream",
    saveJpeg := fun _ _ _ _ _ => .error "no encoder",
    client := some (),
    sendRequest := fun _ => .ok "not json",
    jsonParse := fun _ => none }

theorem claim_C2_witness :
    (processFiles env2
        [⟨"ok.png", [1]⟩, ⟨"broken.pdf", [2]⟩, ⟨"ok2.png", [3]⟩]
      = processFiles env2 [⟨"ok.png", [1]⟩]
          ++ (processFile env2 ⟨"broken.pdf", [2]⟩).1
            :: processFiles env2 [⟨"ok2.png", [3]⟩])
    ∧ (processFile env2 ⟨"broken.pdf", [2]⟩).1.data
        = [("error", "PDF conversion failed")]
    ∧ (analyze_engineering_drawing env2 [1] "broken.pdf").data = [("error", "boom")]
    ∧ (analyze_engineering_drawing env2b [1] "x.pdf").data
        = [("error", "JSON decoding failed"), ("raw_response", "not json")] := by
  have h := claim_C2 env2 [⟨"ok.png", [1]⟩] [⟨"ok2.png", [3]⟩]
    ⟨"broken.pdf", [2]⟩ [1] "boom" ""
  have h2 := claim_C2 env2b [] [] ⟨"x.pdf", []⟩ [1] "" "not json"
  exact ⟨h.1, h.2.1 (by decide) rfl, h.2.2.1 (by decide) rfl,
         h2.2.2.2 (by decide) rfl rfl⟩

/-- Environment for the C3 counterexample; its fields are never reached for
an unsupported-extension file. -/
def env3 : Env :=
  { openDoc := fun _ => .error "cannot open stream",
    saveJpeg := fun _ _ _ _ _ => .error "no encoder",
    client := none,
    sendRequest := fun _ => .error "unreachable",
    jsonParse := fun _ => none }

/-- C3 counterexample: a batch of one uploaded document whose processing
failed (unsupported extension) produces an export with zero rows — the failed
document is omitted from `flattened_data`, not kept as a filename-only row. -/
theorem claim_C3_counterexample :
    ([(⟨"notes.txt", [1]⟩ : UploadedFile)]).length = 1
    ∧ flattened_data (processFiles env3 [⟨"notes.txt", [1]⟩]) = [] := by
  constructor
  · rfl
  · rfl

/-- C3 (amended): the script's Excel export has one row per document in
order, failure rows carrying the filename plus the error entry; the app's
CSV export (`flattened_data` in `main.py`) instead *omits* every record
holding an `"error"` key — it has one row per *successfully processed*
document, in upload order, and a batch's failed documents contribute no row. -/
theorem claim_C3 (records : List FileRecord) :
    flattened_data records
      = (records.filter
            (fun r => !(r.data.any (fun kv => kv.1 == "error")))).map
          (fun r => ("filename", r.filename) :: r.data)
    ∧ excelRecords records
      = records.map (fun r => ("filename", r.filename) :: r.data) := by
  constructor
  · induction records with
    | nil => rfl
    | cons r rest ih =>
      by_cases hr : r.data.any (fun kv => kv.1 == "error") = true
      · simp [flattened_data, hr, ih, List.filter_cons]
      · simp only [Bool.not_eq_true] at hr
        simp [flattened_data, hr, ih, List.filter_cons]
  · induction records with
    | nil => rfl
    | cons r rest ih => simp [excelRecords, ih]

/-- Environment for the C4 counterexample: the model replies with the empty
JSON object, which `json.loads` parses to an empty dict. -/
def env4 : Env :=
  { openDoc := fun _ => .error "cannot open stream",
    saveJpeg := fun _ _ _ _ _ => .error "no encoder",
    client := some (),
    sendRequest := fun _ => .ok "\x7b\x7d",
    jsonParse := fun s => if s = "\x7b\x7d" then some [] else none }

/-- C4 counterexample: a parsed empty-object reply is returned as a success
outcome (no `"error"` key) whose mapping contains none of the schema's
required field names — and the schema defines 23 required fields, not 22. -/
theorem claim_C4_counterexample :
    (analyze_engineering_drawing env4 [137] "drawing.png").data = []
    ∧ ((analyze_engineering_drawing env4 [137] "drawing.png").data.any
        (fun kv => kv.1 == "error")) = false
    ∧ jsonSchemaRequired.length = 23 := by
  refine ⟨rfl, rfl, rfl⟩

/-- C4 (amended): validation enforces no required-field presence — any reply
that `json.loads` parses is returned verbatim as the success mapping,
whatever keys it has (missing keys stay absent, no placeholder is added);
the schema's `required` list moreover has 23 field names, not 22. -/
theorem claim_C4 (env : Env) (img : List Nat) (name c : String)
    (d : List (String × String))
    (hcl : env.client.isSome = true)
    (hsend : env.sendRequest (buildRequest img) = .ok c)
    (hparse : env.jsonParse c = some d) :
    (analyze_engineering_drawing env img name).data = d
    ∧ jsonSchemaRequired.length = 23 := by
  refine ⟨?_, rfl⟩
  simp [analyze_engineering_drawing, Option.isNone_iff_eq_none,
    Option.isSome_iff_ne_none.mp hcl, hsend, hparse]

theorem claim_C4_witness :
    env4.client.isSome = true
    ∧ env4.sendRequest (buildRequest [137]) = .ok "\x7b\x7d"
    ∧ env4.jsonParse "\x7b\x7d" = some []
    ∧ ((analyze_engineering_drawing env4 [137] "d.png").data = []
        ∧ jsonSchemaRequired.length = 23) :=
  ⟨rfl, rfl, by decide, claim_C4 env4 [137] "d.png" "\x7b\x7d" [] rfl rfl (by decide)⟩

/-- A 501-character raw model reply that is not valid JSON. -/
def longReply : String := String.mk (List.replicate 501 'a')

/-- Environment for the C5 counterexample: the request succeeds with the
501-character unparseable reply. -/
def env5 : Env :=
  { openDoc := fun _ => .error "cannot open stream",
    saveJpeg := fun _ _ _ _ _ => .error "no encoder",
    client := some (),
    sendRequest := fun _ => .ok longReply,
    jsonParse := fun _ => none }

set_option maxRecDepth 8000 in
/-- C5 counterexample: for a 501-character non-JSON reply, the failure record
retains the *whole* raw reply under `raw_response` — 501 characters, beyond
the claimed 500-character bound. -/
theorem claim_C5_counterexample :
    (analyze_engineering_drawing env5 [0] "f.png").data
      = [("error", "JSON decoding failed"), ("raw_response", longReply)]
    ∧ 500 < longReply.length := by
  refine ⟨rfl, by decide⟩

/-- C5 (amended): on a syntactically invalid reply the failure record carries
kind `"JSON decoding failed"` and retains the full, unbounded raw reply under
`"raw_response"`; only the console diagnostic (`print`) truncates the reply
to its first 500 characters. -/
theorem claim_C5 (env : Env) (img : List Nat) (name c : String)
    (hcl : env.client.isSome = true)
    (hsend : env.sendRequest (buildRequest img) = .ok c)
    (hparse : env.jsonParse c = none) :
    (analyze_engineering_drawing env img name).data
      = [("error", "JSON decoding failed"), ("raw_response", c)]
    ∧ ("Error: Could not decode JSON from API response for " ++ name
        ++ ". Raw content: " ++ c.take 500 ++ "...")
        ∈ (analyze_engineering_drawing env img name).printed := by
  constructor <;>
    simp [analyze_engineering_drawing, Option.isNone_iff_eq_none,
      Option.isSome_iff_ne_none.mp hcl, hsend, hparse]

set_option maxRecDepth 8000 in
theorem claim_C5_witness :
    env5.client.isSome = true
    ∧ env5.sendRequest (buildRequest [0]) = .ok longReply
    ∧ env5.jsonParse longReply = none
    ∧ ((analyze_engineering_drawing env5 [0] "g.png").data
        = [("error", "JSON decoding failed"), ("raw_response", longReply)]
      ∧ ("Error: Could not decode JSON from API response for " ++ "g.png"
          ++ ". Raw content: " ++ longReply.take 500 ++ "...")
          ∈ (analyze_engineering_drawing env5 [0] "g.png").printed) :=
  ⟨rfl, rfl, rfl, claim_C5 env5 [0] "g.png" longReply rfl rfl rfl⟩

/-- Environment for the C6 counterexample: the stream opens to a one-page
document whose rasterization raises. -/
def env6 : Env :=
  { openDoc := fun _ =>
      .ok { pageCount := 1, getPixmap := fun _ _ => .error "render failed" },
    saveJpeg := fun _ _ _ _ _ => .error "no encoder",
    client := none,
    sendRequest := fun _ => .error "unreachable",
    jsonParse := fun _ => none }

/-- C6 counterexample: when `get_pixmap` raises after the document was
opened, the function exits through the `except` path with one handle opened
and zero handles closed — the native handle is not released on this exit
path. -/
theorem claim_C6_counterexample :
    (convert_pdf_to_image_bytes env6 [37]).openedHandles = 1
    ∧ (convert_pdf_to_image_bytes env6 [37]).closedHandles = 0
    ∧ (convert_pdf_to_image_bytes env6 [37]).result = none := by
  refine ⟨rfl, rfl, rfl⟩

/-- C6 (amended): `pdf_document.close()` runs only on the successful exit
path.  On every `None` exit — `fitz.open` raising, the early return on an
empty (falsy) document, and an exception during rendering or JPEG encoding —
the handle opened by `fitz.open` (if any) is not released. -/
theorem claim_C6 (env : Env) (pdfBytes : List Nat) :
    (convert_pdf_to_image_bytes env pdfBytes).closedHandles
      = (if (convert_pdf_to_image_bytes env pdfBytes).result.isSome then 1 else 0)
    ∧ (convert_pdf_to_image_bytes env pdfBytes).openedHandles
      = (match env.openDoc pdfBytes with | .ok _ => 1 | .error _ => 0) := by
  rcases h : env.openDoc pdfBytes with e | doc
  · simp [convert_pdf_to_image_bytes, h]
  · by_cases hp : doc.pageCount = 0
    · simp [convert_pdf_to_image_bytes, h, hp]
    · rcases hx : doc.getPixmap 0 (2, 2) with e2 | pix
      · simp [convert_pdf_to_image_bytes, h, hp, hx]
      · rcases hs : env.saveJpeg "RGB" (pix.width, pix.height) pix.samples "JPEG" 95
          with e3 | jb
        · simp [convert_pdf_to_image_bytes, h, hp, hx, hs]
        · simp [convert_pdf_to_image_bytes, h, hp, hx, hs]

/-- Environment for the C7 witness; its fields are never reached for an
unsupported-extension file. -/
def env7 : Env :=
  { openDoc := fun _ => .error "cannot open stream",
    saveJpeg := fun _ _ _ _ _ => .error "no encoder",
    client := none,
    sendRequest := fun _ => .error "unreachable",
    jsonParse := fun _ => none }

/-- C7: a file whose extension is not `pdf`, `png`, `jpg` or `jpeg` is
recorded as the "Unsupported file type" failure, and no request is ever
dispatched to the model capability for it. -/
theorem claim_C7 (env : Env) (f : UploadedFile)
    (h1 : fileExtension f.name ≠ "pdf") (h2 : fileExtension f.name ≠ "png")
    (h3 : fileExtension f.name ≠ "jpg") (h4 : fileExtension f.name ≠ "jpeg") :
    (processFile env f).1.data = [("error", "Unsupported file type")]
    ∧ (processFile env f).2 = [] := by
  constructor <;> simp [processFile, h1, h2, h3, h4]

theorem claim_C7_witness :
    fileExtension "readme.txt" ≠ "pdf"
    ∧ fileExtension "readme.txt" ≠ "png"
    ∧ fileExtension "readme.txt" ≠ "jpg"
    ∧ fileExtension "readme.txt" ≠ "jpeg"
    ∧ ((processFile env7 ⟨"readme.txt", [1, 2]⟩).1.data
        = [("error", "Unsupported file type")]
      ∧ (processFile env7 ⟨"readme.txt", [1, 2]⟩).2 = []) :=
  ⟨by decide, by decide, by decide, by decide,
   claim_C7 env7 ⟨"readme.txt", [1, 2]⟩ (by decide) (by decide) (by decide) (by decide)⟩

/-- C8: every `get_pixmap` call issued by `convert_pdf_to_image_bytes` is for
page 0 with the fixed 2×2 matrix, and every PIL encoding it requests is
`RGB`/`JPEG` at quality 95; an uploaded file of image kind (`png`/`jpg`/`jpeg`
extension, non-empty) is passed to `analyze_engineering_drawing` with its
bytes unchanged. -/
theorem claim_C8 (env : Env) (pdfBytes : List Nat) (f : UploadedFile)
    (himg : fileExtension f.name = "png" ∨ fileExtension f.name = "jpg"
            ∨ fileExtension f.name = "jpeg")
    (hne : f.content ≠ []) :
    ((convert_pdf_to_image_bytes env pdfBytes).renderCalls.all
        (fun rc => rc == (0, 2, 2))) = true
    ∧ ((convert_pdf_to_image_bytes env pdfBytes).encodeCalls.all
        (fun ec => ec == ("RGB", "JPEG", 95))) = true
    ∧ (processFile env f).1.data
        = (analyze_engineering_drawing env f.content f.name).data
    ∧ (processFile env f).2
        = (analyze_engineering_drawing env f.content f.name).calls := by
  have hemp : f.content.isEmpty = false := by
    cases hc : f.content with
    | nil => exact absurd hc hne
    | cons b bs => simp [hc]
  refine ⟨?_, ?_, ?_, ?_⟩
  · unfold convert_pdf_to_image_bytes
    repeat' split
    all_goals rfl
  · unfold convert_pdf_to_image_bytes
    repeat' split
    all_goals rfl
  · rcases himg with h | h | h <;> simp [processFile, h, hemp]
  · rcases himg with h | h | h <;> simp [processFile, h, hemp]

/-- Environment for the C8 witness. -/
def env8 : Env :=
  { openDoc := fun _ => .error "cannot open stream",
    saveJpeg := fun _ _ _ _ _ => .error "no encoder",
    client := some (),
    sendRequest := fun _ => .ok "not json",
    jsonParse := fun _ => none }

theorem claim_C8_witness :
    (fileExtension "scan.png" = "png" ∨ fileExtension "scan.png" = "jpg"
      ∨ fileExtension "scan.png" = "jpeg")
    ∧ ([5, 6] : List Nat) ≠ []
    ∧ (((convert_pdf_to_image_bytes env8 [9]).renderCalls.all
          (fun rc => rc == (0, 2, 2))) = true
      ∧ ((convert_pdf_to_image_bytes env8 [9]).encodeCalls.all
          (fun ec => ec == ("RGB", "JPEG", 95))) = true
      ∧ (processFile env8 ⟨"scan.png", [5, 6]⟩).1.data
          = (analyze_engineering_drawing env8 [5, 6] "scan.png").data
      ∧ (processFile env8 ⟨"scan.png", [5, 6]⟩).2
          = (analyze_engineering_drawing env8 [5, 6] "scan.png").calls) :=
  ⟨Or.inl (by decide), by decide,
   claim_C8 env8 [9] ⟨"scan.png", [5, 6]⟩ (Or.inl (by decide)) (by decide)⟩

/-- C9: whenever the client is configured, `analyze_engineering_drawing`
dispatches exactly one request — also when the call raises or the reply fails
to parse, there is no retry — and that request fixes `temperature = 0`,
`max_tokens = 3000`, a single embedded image (the data URI of the input
bytes) and `response_format = json_object`. -/
theorem claim_C9 (env : Env) (imageBytes : List Nat) (filename : String)
    (hcl : env.client.isSome = true) :
    (analyze_engineering_drawing env imageBytes filename).calls
      = [buildRequest imageBytes]
    ∧ (buildRequest imageBytes).temperature = 0
    ∧ (buildRequest imageBytes).maxTokens = 3000
    ∧ (buildRequest imageBytes).imageUrls = [encode_image_to_base64 imageBytes]
    ∧ (buildRequest imageBytes).responseFormat = "json_object" := by
  refine ⟨?_, rfl, rfl, rfl, rfl⟩
  have hnn : env.client.isNone = false := by
    rcases hc : env.client with _ | u
    · rw [hc] at hcl; simp at hcl
    · rfl
  simp only [analyze_engineering_drawing, hnn, Bool.false_eq_true, if_false]
  rcases hs : env.sendRequest (buildRequest imageBytes) with e | c
  · simp [hs]
  · rcases hp : env.jsonParse c with _ | d
    · simp [hs, hp]
    · simp [hs, hp]

/-- Environment for the C9 witness. -/
def env9 : Env :=
  { openDoc := fun _ => .error "cannot open stream",
    saveJpeg := fun _ _ _ _ _ => .error "no encoder",
    client := some (),
    sendRequest := fun _ => .ok "not json",
    jsonParse := fun _ => none }

theorem claim_C9_witness :
    env9.client.isSome = true
    ∧ ((analyze_engineering_drawing env9 [1] "a.png").calls = [buildRequest [1]]
      ∧ (buildRequest [1]).temperature = 0
      ∧ (buildRequest [1]).maxTokens = 3000
      ∧ (buildRequest [1]).imageUrls = [encode_image_to_base64 [1]]
      ∧ (buildRequest [1]).responseFormat = "json_object") :=
  ⟨rfl, claim_C9 env9 [1] "a.png" rfl⟩

/-- C10: `encode_image_to_base64` returns the constant prefix
`"data:image/jpeg;base64,"` followed by the base64 encoding of the input
bytes — for *every* input, so the prefix claims JPEG regardless of the actual
format of the bytes (in particular for PNG bytes, which `main.py` passes
through unchanged) — and base64-decoding the part after the 23-character
prefix recovers the original bytes exactly. -/
theorem claim_C10 (bytes : List Nat) (h : ∀ b ∈ bytes, b < 256) :
    (encode_image_to_base64 bytes).data
      = "data:image/jpeg;base64,".data ++ base64Encode bytes
    ∧ base64Decode ((encode_image_to_base64 bytes).data.drop 23) = some bytes
    ∧ "data:image/jpeg;base64,".length = 23 := by
  have hdata : (encode_image_to_base64 bytes).data
      = "data:image/jpeg;base64,".data ++ base64Encode bytes := rfl
  refine ⟨hdata, ?_, by decide⟩
  rw [hdata, show (23 : Nat) = "data:image/jpeg;base64,".data.length from rfl,
    List.drop_left]
  exact base64_roundtrip bytes h

theorem claim_C10_witness :
    (∀ b ∈ ([137, 80, 78, 71, 13, 10, 26, 10] : List Nat), b < 256)
    ∧ ((encode_image_to_base64 [137, 80, 78, 71, 13, 10, 26, 10]).data
        = "data:image/jpeg;base64,".data
            ++ base64Encode [137, 80, 78, 71, 13, 10, 26, 10]
      ∧ base64Decode
          ((encode_image_to_base64 [137, 80, 78, 71, 13, 10, 26, 10]).data.drop 23)
          = some [137, 80, 78, 71, 13, 10, 26, 10]
      ∧ "data:image/jpeg;base64,".length = 23) :=
  ⟨by decide, claim_C10 [137, 80, 78, 71, 13, 10, 26, 10] (by decide)⟩

end Cyl
